import Mathlib

/-!
Shallow embedding of the dino-budgeter server code (transaction handlers,
frame/balance aggregation) and proofs of the specification claims.

Source files embedded:
  * `src/server/frames.ts` — frame materialization and balance/spending rollups;
  * the transaction request handlers (`handle_transaction_post`,
    `handle_transaction_delete`, the generic field-update path,
    `handle_transaction_split_post`).

Monetary values (`Money` in the TypeScript code) are arbitrary-precision
decimals with canonical string serialization; we embed a valid monetary value
as an integer count of minor currency units (`ℤ`), together with a
parse-validity flag, since request bodies may carry malformed (unparseable)
money strings.  Because serialization is canonical, `a.string() == b.string()`
holds for two valid moneys exactly when their numeric values coincide, and we
embed the string-equality checks as equality on `ℤ`.  Helper modules that are
referenced but not among the provided sources (`Money`, `shared/transactions`,
the `user`, `categories`, `payments` and `transactions` data-access modules)
are modelled from the spec; each such definition says so in its doc comment.

The database is embedded as a record of lists of rows, one list per table, and
each handler is a pure function `Request → State → Result × State`; SQL
statements become list filters, maps and appends.  `util.randomId()` is
embedded by a fresh-id counter threaded through the state (`nextId`), which
keeps generated ids distinct from each other.
-/

namespace Dino

/-- A monetary value as carried in a request body: a rational magnitude plus a
flag recording whether the client-sent string parsed as a number at all
(`ok = false` models a NaN/invalid `Money`). -/
structure Money where
  val : ℤ
  ok : Bool := true
deriving Repr, DecidableEq

/-- `Money.isValid(allowNegative)`: the value parsed, and is non-negative
unless negatives are allowed. -/
def Money.isValid (m : Money) (allowNegative : Bool) : Bool :=
  m.ok && (allowNegative || decide (0 ≤ m.val))

/-- `Money.plus`. -/
def Money.plus (a b : Money) : Money :=
  ⟨a.val + b.val, a.ok && b.ok⟩

/-- `Money.sum`: fold of `plus` over a list of (valid) amounts, starting from
`Money.Zero`; database rows always hold valid amounts, so it acts on `ℤ`. -/
def Money.qsum (l : List ℤ) : ℤ :=
  l.foldl (fun a b => a + b) 0

/-- Modelled from the spec: `distributeTotal` (from `shared/transactions`,
not among the provided sources) partitions `total` into two non-negative
parts in the ratio `s1 : s2`, summing exactly to `total`: the first part is
the share `total * s1 / (s1 + s2)` rounded to a whole number of minor units,
and the second is the remainder. -/
def distributeTotal (total s1 s2 : ℤ) : ℤ × ℤ :=
  let first := total * s1 / (s1 + s2)
  (first, total - first)

/-- A row of the `transactions` table.  Amounts are stored as canonical
decimal strings; we keep the denoted rational.  `alive` is the soft-delete
flag (the insert statements omit it, so it defaults to true). -/
structure TxRow where
  id : String
  gid : String
  frame : Int
  amount : ℤ
  description : String
  category : Option String
  date : String
  alive : Bool
deriving Repr, DecidableEq

/-- A row of the `frames` table. -/
structure FrameRow where
  gid : String
  index : Int
  income : ℤ
  ghost : Bool
deriving Repr, DecidableEq

/-- A row of the `categories` table. -/
structure CatRow where
  id : String
  gid : String
  frame : Int
  name : String
  ordering : Int
  budget : ℤ
  ghost : Bool
  alive : Bool
deriving Repr, DecidableEq

/-- A row of the `shared_transactions` table. -/
structure SharedTxRow where
  id : String
  payer : Option String
  settled : Bool
deriving Repr, DecidableEq

/-- A row of the `transaction_splits` table. -/
structure SplitRow where
  tid : String
  sid : String
  share : ℤ
deriving Repr, DecidableEq

/-- The database state.  Besides the five SQL tables of the embedded code we
carry: the friend-ledger balances maintained by `payments.addToBalance`
(modelled from the spec: a running owed total per pair of friends), the
`users` map from uid to default group id (backing `user.getDefaultGroup` and
`user.getFriend(..).gid`), the friendship edges (backing `user.isFriend`),
and a fresh-id counter standing in for `util.randomId`. -/
structure DB where
  transactions : List TxRow
  frames : List FrameRow
  categories : List CatRow
  sharedTransactions : List SharedTxRow
  transactionSplits : List SplitRow
  friendBalances : List (String × String × ℤ)
  users : List (String × String)
  friendships : List (String × String)
  nextId : Nat
deriving Repr, DecidableEq

/-- `util.randomId`, embedded as a deterministic fresh-id supply. -/
def genId (n : Nat) : String := "gen" ++ toString n

/-- Modelled from the spec: `user.getDefaultGroup(actor, t)` (the user module
is not among the provided sources) resolves a uid to its default group id. -/
def defaultGroup (uid : String) (st : DB) : String :=
  match st.users.find? (fun p => p.1 == uid) with
  | some p => p.2
  | none => ""

/-- Modelled from the spec: `user.isFriend(a, b, t)` tests the friendship
edge between two users (in either orientation). -/
def isFriend (a b : String) (st : DB) : Bool :=
  st.friendships.any (fun p => (p.1 == a && p.2 == b) || (p.1 == b && p.2 == a))

/-- Modelled from the spec: `payments.addToBalance(u1, u2, amount, t)` adds
`amount` to the running owed balance recorded for the pair `(u1, u2)`. -/
def addToBalance (u1 u2 : String) (amount : ℤ) (st : DB) : DB :=
  if st.friendBalances.any (fun p => p.1 == u1 && p.2.1 == u2) then
    { st with friendBalances := st.friendBalances.map (fun p =>
        if p.1 == u1 && p.2.1 == u2 then (p.1, p.2.1, p.2.2 + amount) else p) }
  else
    { st with friendBalances := st.friendBalances ++ [(u1, u2, amount)] }

/-! ### `src/server/frames.ts` -/

/-- `getBalance(gid, index)`: alive spending with `frame <= index` is summed,
income of frames with `index <= index` is summed, and the result is
income minus spending (two queries, in the source's order). -/
def getBalance (gid : String) (index : Int) (st : DB) : ℤ :=
  let spentRows := st.transactions.filter
    (fun r => r.gid == gid && decide (r.frame ≤ index) && r.alive)
  let totalSpent := Money.qsum (spentRows.map (fun r => r.amount))
  let incomeRows := st.frames.filter
    (fun r => r.gid == gid && decide (r.index ≤ index))
  let totalIncome := Money.qsum (incomeRows.map (fun r => r.income))
  totalIncome - totalSpent

/-- `getSpending(gid, frame)`: sum of alive transaction amounts of exactly
this frame. -/
def getSpending (gid : String) (frame : Int) (st : DB) : ℤ :=
  Money.qsum ((st.transactions.filter
    (fun r => r.gid == gid && r.frame == frame && r.alive)).map (fun r => r.amount))

/-- Modelled from the spec: `categories.getSpending(id, index, t)` (the
categories module is not among the provided sources) computes the
category-scoped spending: the sum of alive transaction amounts carrying this
category id in this frame. -/
def categoriesGetSpending (cid : String) (frame : Int) (st : DB) : ℤ :=
  Money.qsum ((st.transactions.filter
    (fun r => r.category == some cid && r.frame == frame && r.alive)).map (fun r => r.amount))

/-- An enriched category as returned to clients: the persisted row plus the
computed `balance`. -/
structure Category where
  id : String
  gid : String
  frame : Int
  name : String
  ordering : Int
  budget : ℤ
  balance : ℤ
  ghost : Bool
  alive : Bool
deriving Repr, DecidableEq

/-- The `order by ordering asc` relation of `getCategories`. -/
def catRowLe (a b : CatRow) : Prop := a.ordering ≤ b.ordering

instance : DecidableRel catRowLe := fun a b =>
  inferInstanceAs (Decidable (a.ordering ≤ b.ordering))

instance : IsTotal CatRow catRowLe := ⟨fun a b => le_total a.ordering b.ordering⟩

instance : IsTrans CatRow catRowLe := ⟨fun _ _ _ h1 h2 => le_trans h1 h2⟩

/-- `getCategories(gid, frame)`: the alive category rows of the frame in
ascending `ordering`, each with `balance = budget - categories.getSpending`. -/
def getCategories (gid : String) (frame : Int) (st : DB) : List Category :=
  let rows := st.categories.filter (fun r => r.gid == gid && r.frame == frame && r.alive)
  (List.insertionSort catRowLe rows).map (fun r =>
    { id := r.id, gid := r.gid, frame := r.frame, name := r.name, ordering := r.ordering,
      budget := r.budget, ghost := r.ghost, alive := r.alive,
      balance := r.budget - categoriesGetSpending r.id frame st })

/-- `getPreviousFrame(gid, index)`: the frame row of the group with the
largest index strictly below `index` (`order by index desc limit 1`). -/
def getPreviousFrame (gid : String) (index : Int) (st : DB) : Option FrameRow :=
  (st.frames.filter (fun r => r.gid == gid && decide (r.index < index))).foldl
    (fun acc r =>
      match acc with
      | none => some r
      | some b => if b.index < r.index then some r else some b) none

/-- `deleteGhost(gid, index)`: drop the ghost category rows of the frame and
the ghost frame row itself. -/
def deleteGhost (gid : String) (index : Int) (st : DB) : DB :=
  { st with
    categories := st.categories.filter (fun r => !(r.gid == gid && r.frame == index && r.ghost)),
    frames := st.frames.filter (fun r => !(r.gid == gid && r.index == index && r.ghost)) }

/-- The enriched frame returned by `getOrCreateFrame`. -/
structure Frame where
  gid : String
  index : Int
  income : ℤ
  balance : ℤ
  spending : ℤ
  categories : List Category
  ghost : Bool
deriving Repr, DecidableEq

/-- Modelled from the spec: `categories.DEFAULT_CATEGORIES` (not among the
provided sources) is a fixed list of default category names; the concrete
names are immaterial, only the list is referenced. -/
def DEFAULT_CATEGORIES : List String := ["Groceries", "Rent", "Utilities", "Fun"]

/-- The default categories seeded when no previous frame exists: one ghost
category per default name with zero budget, fresh ids, orderings 0, 1, ...,
and `balance = Money.Zero.minus(categories.getSpending(id, index))`. -/
def defaultCategories (gid : String) (index : Int) (n : Nat) (st : DB) : List Category :=
  DEFAULT_CATEGORIES.enum.map (fun p =>
    { name := p.2, gid := gid, frame := index, alive := true, id := genId (n + p.1),
      ghost := true, ordering := (p.1 : Int), budget := 0,
      balance := 0 - categoriesGetSpending (genId (n + p.1)) index st })

/-- The final writes of the ghost-frame path: insert the `frames` row
(carrying `gid`, `index`, `income`, `ghost = true`) and one `categories` row
per category (carrying id, gid, frame, name, ordering, budget, `ghost = true`;
`alive` is not an insert column and defaults to true). -/
def persistNewFrame (frame : Frame) (st : DB) : Frame × DB :=
  let frameRow : FrameRow := { gid := frame.gid, index := frame.index, income := frame.income, ghost := true }
  let catRows := frame.categories.map (fun c =>
    { id := c.id, gid := c.gid, frame := c.frame, name := c.name, ordering := c.ordering,
      budget := c.budget, ghost := true, alive := true : CatRow })
  (frame, { st with frames := st.frames ++ [frameRow], categories := st.categories ++ catRows })

/-- `getOrCreateFrameInner(gid, index)`: return the persisted frame enriched
with categories/balance/spending when a non-ghost row exists; otherwise delete
any stale ghost, synthesize a ghost frame (carrying forward the previous
frame's income and categories re-pointed to `index`, or seeding defaults),
and persist it. -/
def getOrCreateFrameInner (gid : String) (index : Int) (st : DB) : Frame × DB :=
  match st.frames.find? (fun r => r.gid == gid && r.index == index && r.ghost == false) with
  | some row =>
      ({ gid := row.gid, index := row.index, income := row.income, ghost := row.ghost,
         categories := getCategories gid index st,
         balance := getBalance gid index st,
         spending := getSpending gid index st }, st)
  | none =>
      let st1 := deleteGhost gid index st
      let spending := getSpending gid index st1
      let balance0 := getBalance gid index st1
      match getPreviousFrame gid index st1 with
      | some prev =>
          persistNewFrame
            { gid := gid, index := index, income := prev.income,
              balance := balance0 + prev.income, spending := spending,
              categories := (getCategories gid prev.index st1).map (fun c => { c with frame := index }),
              ghost := true } st1
      | none =>
          persistNewFrame
            { gid := gid, index := index, income := 0, balance := balance0, spending := spending,
              categories := defaultCategories gid index st1.nextId st1, ghost := true }
            { st1 with nextId := st1.nextId + DEFAULT_CATEGORIES.length }

/-- The acting (authenticated) user of a request. -/
structure User where
  uid : String
deriving Repr, DecidableEq

/-- The `split` part of an `AddTransactionRequest` (`with` is a Lean keyword,
so the counterparty uid is called `withUid`). -/
structure SplitReq where
  withUid : String
  iPaid : Bool
  otherAmount : Money
  myShare : Money
  theirShare : Money
deriving Repr, DecidableEq

/-- `AddTransactionRequest`. -/
structure AddTransactionRequest where
  frame : Int
  amount : Money
  description : String
  category : Option String
  date : String
  split : Option SplitReq
deriving Repr, DecidableEq

/-- The split object embedded in a returned `Transaction`. -/
structure TransactionSplit where
  id : String
  withUid : String
  settled : Bool
  myShare : Money
  theirShare : Money
  otherAmount : Money
  payer : Option String
deriving Repr, DecidableEq

/-- The `Transaction` object returned by `handle_transaction_post`. -/
structure Transaction where
  id : String
  gid : String
  frame : Int
  category : Option String
  amount : Money
  description : String
  alive : Bool
  date : String
  split : Option TransactionSplit
deriving Repr, DecidableEq

/-- Result of `handle_transaction_post`: the created transaction, or a 400
status with no response body. -/
inductive PostResult where
  | tx (t : Transaction)
  | code400
deriving Repr, DecidableEq

/-- Whether a `PostResult` is a created transaction. -/
def PostResult.isTx : PostResult → Bool
  | .tx _ => true
  | .code400 => false

/-- The `request.category || null` coercion: a missing or empty (falsy)
category id becomes SQL null. -/
def orNull (c : Option String) : Option String :=
  match c with
  | some s => if s = "" then none else some s
  | none => none

/-- Modelled from the spec: the pure `transactions.getBalance({user,
otherUser, amount, otherAmount, payer})` (not among the provided sources)
computes the signed owed amount between the two users induced by one shared
transaction, oriented from the acting user's side: the counterparty owes
their amount when the acting user paid, and vice versa. -/
def txGetBalance (user otherUser : String) (amount otherAmount : ℤ)
    (payer : Option String) : ℤ :=
  if payer = some user then otherAmount
  else if payer = some otherUser then -amount
  else 0

/-- The split-validation step of `handle_transaction_post`: all three split
moneys must be valid and non-negative, and `distributeTotal` over
`amount + otherAmount` must reproduce the submitted amounts exactly (the
source compares canonical serializations; on valid moneys that is value
equality). -/
def splitValidationFails (request : AddTransactionRequest) : Bool :=
  match request.split with
  | none => false
  | some sp =>
    if !sp.otherAmount.isValid false || !sp.myShare.isValid false ||
        !sp.theirShare.isValid false then true
    else
      let total := request.amount.plus sp.otherAmount
      let calcPair := distributeTotal total.val sp.myShare.val sp.theirShare.val
      decide (calcPair.1 ≠ request.amount.val) || decide (calcPair.2 ≠ sp.otherAmount.val)

/-- `handle_transaction_post`: validate the amount (and, when splitting, the
three split amounts and the `distributeTotal` reconciliation), then, inside
one database transaction: check friendship (400 otherwise), insert the
primary row, and for a split additionally adjust the friend ledger, insert
the mirrored row for the counterparty (with null category), the
`shared_transactions` row and the two `transaction_splits` rows. -/
def handle_transaction_post (request : AddTransactionRequest) (actor : User)
    (st : DB) : PostResult × DB :=
  let payer : Option String :=
    match request.split with
    | some sp => some (if sp.iPaid then actor.uid else sp.withUid)
    | none => none
  if request.amount.isValid false = false then (.code400, st)
  else if splitValidationFails request then (.code400, st)
  else
    let txId := genId st.nextId
    let gid := defaultGroup actor.uid st
    let row : TxRow := { id := txId, gid := gid, frame := request.frame,
                         amount := request.amount.val, description := request.description,
                         category := orNull request.category, date := request.date,
                         alive := true }
    match request.split with
    | none =>
        let ret : Transaction := { id := txId, gid := gid, frame := request.frame,
                                   category := request.category, amount := request.amount,
                                   description := request.description, alive := true,
                                   date := request.date, split := none }
        (.tx ret, { st with transactions := st.transactions ++ [row],
                            nextId := st.nextId + 1 })
    | some sp =>
        if isFriend actor.uid sp.withUid st = false then (.code400, st)
        else
          let otherId := genId (st.nextId + 1)
          let otherGid := defaultGroup sp.withUid st
          let sid := genId (st.nextId + 2)
          let bal := txGetBalance actor.uid sp.withUid request.amount.val
            sp.otherAmount.val payer
          let stb := addToBalance actor.uid sp.withUid bal st
          let otherRow : TxRow := { id := otherId, gid := otherGid,
                                    frame := request.frame, amount := sp.otherAmount.val,
                                    description := request.description, category := none,
                                    date := request.date, alive := true }
          let retSplit : TransactionSplit := { id := sid, withUid := sp.withUid, settled := false,
                                               myShare := sp.myShare, theirShare := sp.theirShare,
                                               otherAmount := sp.otherAmount, payer := payer }
          let ret : Transaction := { id := txId, gid := gid, frame := request.frame,
                                     category := request.category, amount := request.amount,
                                     description := request.description, alive := true,
                                     date := request.date, split := some retSplit }
          let sharedRow : SharedTxRow := { id := sid, payer := payer, settled := true }
          let splitRow1 : SplitRow := { tid := txId, sid := sid, share := sp.myShare.val }
          let splitRow2 : SplitRow := { tid := otherId, sid := sid, share := sp.theirShare.val }
          (.tx ret, { stb with
                      transactions := stb.transactions ++ [row, otherRow],
                      sharedTransactions := stb.sharedTransactions ++ [sharedRow],
                      transactionSplits := stb.transactionSplits ++ [splitRow1, splitRow2],
                      nextId := st.nextId + 3 })

/-- Status-code results of the update, delete and split handlers
(`StatusCodeNoResponse`); `dbError` stands for a query that throws (e.g.
`t.one` finding no row), which rolls the enclosing transaction back. -/
inductive UpdateResult where
  | ok204
  | err400
  | err401
  | dbError
deriving Repr, DecidableEq

/-- The `txField` union type. -/
inductive TxField where
  | amount
  | date
  | description
  | category
deriving Repr, DecidableEq

/-- `isSharedField`: date and description are shared with the linked
transaction of a split. -/
def isSharedField (field : TxField) : Bool :=
  field == .date || field == .description

/-- `canEditShared`: every field except the amount may be edited on a shared
transaction. -/
def canEditShared (field : TxField) : Bool :=
  field != .amount

/-- A value as written into a `transactions` column (the transform step's
output; amounts are serialized, dates and descriptions are strings, the
category is an id or null). -/
inductive RowVal where
  | money (v : ℤ)
  | str (v : String)
  | cat (v : Option String)
deriving Repr, DecidableEq

/-- `update transactions set <field> = <v> where id = <r.id>`, one row.  The
wrapper handlers always pair the field with the matching value shape; the
mismatched cases are unreachable no-ops. -/
def setTxField (field : TxField) (v : RowVal) (r : TxRow) : TxRow :=
  match field, v with
  | .amount, .money q => { r with amount := q }
  | .date, .str s => { r with date := s }
  | .description, .str s => { r with description := s }
  | .category, .cat c => { r with category := c }
  | _, _ => r

/-- `update transactions set <field> = <v> where id = <id>` over the table. -/
def updateTxRow (id : String) (field : TxField) (v : RowVal) (st : DB) : DB :=
  { st with transactions := st.transactions.map (fun r =>
      if r.id == id then setTxField field v r else r) }

/-- Modelled from the spec: `transactions.getTransaction(id, t)` (not among
the provided sources) looks the row up by id. -/
def getTransaction (id : String) (st : DB) : Option TxRow :=
  st.transactions.find? (fun r => r.id == id)

/-- Modelled from the spec: the split linkage populated on a fetched
transaction (`existing.split`) — the `transaction_splits` row carrying this
tid, if any. -/
def getSplitOf (tid : String) (st : DB) : Option SplitRow :=
  st.transactionSplits.find? (fun r => r.tid == tid)

/-- Modelled from the spec: `transactions.getOtherTid(tid, sid, t)` — the tid
on the other side of split `sid`. -/
def getOtherTid (tid sid : String) (st : DB) : Option String :=
  (st.transactionSplits.find? (fun r => r.sid == sid && r.tid != tid)).map (fun r => r.tid)

/-- `handle_transaction_update_post`, the generic field-update path shared by
the four field handlers: reject an invalid value (400) before touching the
database, then look up the transaction, require the caller's default group
(401 otherwise), reject amount edits on a shared transaction (400), write the
transformed value, and propagate it to the linked transaction for shared
fields.  `valueValid` and `newVal` are the outcomes of the caller-supplied
`isValid` predicate and `transform`. -/
def handle_transaction_update_post (field : TxField) (id : String)
    (valueValid : Bool) (newVal : RowVal) (actor : User) (st : DB) :
    UpdateResult × DB :=
  if valueValid = false then (.err400, st)
  else
    match getTransaction id st with
    | none => (.dbError, st)
    | some existing =>
      if existing.gid != defaultGroup actor.uid st then (.err401, st)
      else if (getSplitOf id st).isSome && !canEditShared field then (.err400, st)
      else
        let st1 := updateTxRow id field newVal st
        match getSplitOf id st, isSharedField field with
        | some sp, true =>
            match getOtherTid id sp.sid st with
            | some otid => (.ok204, updateTxRow otid field newVal st1)
            | none => (.dbError, st)
        | _, _ => (.ok204, st1)

/-- `handle_transaction_description_post`: a description is valid when
truthy (non-empty). -/
def handle_transaction_description_post (id : String) (description : String)
    (actor : User) (st : DB) : UpdateResult × DB :=
  handle_transaction_update_post .description id (description != "")
    (.str description) actor st

/-- `handle_transaction_amount_post`: validity is `amount.isValid()` (no
argument: `allowNegative` is undefined, hence falsy) and the transform is
`amount.string()`. -/
def handle_transaction_amount_post (id : String) (amount : Money)
    (actor : User) (st : DB) : UpdateResult × DB :=
  handle_transaction_update_post .amount id (amount.isValid false)
    (.money amount.val) actor st

/-- `handle_transaction_date_post`: no validity predicate. -/
def handle_transaction_date_post (id : String) (date : String)
    (actor : User) (st : DB) : UpdateResult × DB :=
  handle_transaction_update_post .date id true (.str date) actor st

/-- `handle_transaction_category_post`: falsy categories coerce to null. -/
def handle_transaction_category_post (id : String) (category : Option String)
    (actor : User) (st : DB) : UpdateResult × DB :=
  handle_transaction_update_post .category id true (.cat (orNull category)) actor st

/-- Modelled from the spec: `transactions.canUserEdit(id, uid, t)` — the
transaction exists and belongs to the caller's default group (the source
comments that 400 conflates not-found and not-authorized). -/
def canUserEdit (id uid : String) (st : DB) : Bool :=
  match getTransaction id st with
  | some r => r.gid == defaultGroup uid st
  | none => false

/-- Modelled from the spec: `transactions.deleteTransaction(id, t)` — the
soft delete, clearing the alive flag. -/
def deleteTransaction (id : String) (st : DB) : DB :=
  { st with transactions := st.transactions.map (fun r =>
      if r.id == id then { r with alive := false } else r) }

/-- `handle_transaction_delete`: 400 unless `canUserEdit`, else soft-delete
and 204. -/
def handle_transaction_delete (id : String) (actor : User) (st : DB) :
    UpdateResult × DB :=
  if canUserEdit id actor.uid st = false then (.err400, st)
  else (.ok204, deleteTransaction id st)

/-- `TransactionSplitRequest`. -/
structure TransactionSplitRequest where
  tid : String
  sid : String
  total : Money
  myShare : Money
  theirShare : Money
  iPaid : Bool
deriving Repr, DecidableEq

/-- Modelled from the spec: `transactions.getUser(tid, t)` — the uid owning
the transaction, resolved through the group of its row. -/
def getUserOf (tid : String) (st : DB) : Option String :=
  match getTransaction tid st with
  | some r => (st.users.find? (fun p => p.2 == r.gid)).map (fun p => p.1)
  | none => none

/-- Modelled from the spec: `transactions.getBalanceFromDb(tid, t)` — the
owed balance currently induced by the shared transaction of `tid`, computed
from the two stored amounts, the stored payer and the two owners. -/
def getBalanceFromDb (tid : String) (st : DB) : Option ℤ :=
  match getSplitOf tid st with
  | none => none
  | some sp =>
    match getTransaction tid st, getOtherTid tid sp.sid st with
    | some r, some otid =>
      match getTransaction otid st,
          st.sharedTransactions.find? (fun s => s.id == sp.sid),
          getUserOf tid st, getUserOf otid st with
      | some ro, some srow, some u, some ou =>
          some (txGetBalance u ou r.amount ro.amount srow.payer)
      | _, _, _, _ => none
    | _, _ => none

/-- The batched writes of `handle_transaction_split_post`: set the two
transactions' amounts, the two splits' shares, and the shared transaction's
payer (each one an `update ... where` statement). -/
def applySplitUpdates (tid otherTid sid : String) (a1 a2 myS theirS : ℤ)
    (payer : String) (st : DB) : DB :=
  { st with
    transactions := (st.transactions.map (fun r =>
        if r.id == tid then { r with amount := a1 } else r)).map (fun r =>
        if r.id == otherTid then { r with amount := a2 } else r),
    transactionSplits := (st.transactionSplits.map (fun r =>
        if r.tid == tid then { r with share := myS } else r)).map (fun r =>
        if r.tid == otherTid then { r with share := theirS } else r),
    sharedTransactions := st.sharedTransactions.map (fun r =>
        if r.id == sid then { r with payer := some payer } else r) }

/-- `handle_transaction_split_post`: validate the three amounts and the two
ids (400 otherwise), recompute the two sides via `distributeTotal`, then in
one database transaction: resolve the other side and its owner, apply the
ledger delta, update both amounts, both shares and the payer, and return
204.  No group-ownership check appears anywhere on this path. -/
def handle_transaction_split_post (request : TransactionSplitRequest)
    (actor : User) (st : DB) : UpdateResult × DB :=
  if !request.total.isValid false || !request.myShare.isValid false ||
      !request.theirShare.isValid false || request.tid == "" || request.sid == "" then
    (.err400, st)
  else
    let amounts := distributeTotal request.total.val request.myShare.val
      request.theirShare.val
    match getOtherTid request.tid request.sid st with
    | none => (.dbError, st)
    | some otherTid =>
      match getUserOf otherTid st with
      | none => (.dbError, st)
      | some otherUid =>
        let payer := if request.iPaid then actor.uid else otherUid
        match getBalanceFromDb request.tid st with
        | none => (.dbError, st)
        | some prevBalance =>
          let newBalance := txGetBalance actor.uid otherUid amounts.1 amounts.2
            (some payer)
          let balanceDelta := newBalance - prevBalance
          let st1 := addToBalance actor.uid otherUid balanceDelta st
          (.ok204, applySplitUpdates request.tid otherTid request.sid amounts.1 amounts.2
            request.myShare.val request.theirShare.val payer st1)

/-- A concrete two-user database: alice (group g1) and bob (group g2) are
friends; no rows yet. -/
def stC2 : DB := { transactions := [], frames := [], categories := [], sharedTransactions := [],
                   transactionSplits := [], friendBalances := [],
                   users := [("alice", "g1"), ("bob", "g2")],
                   friendships := [("alice", "bob")], nextId := 0 }

/-- The acting user alice. -/
def actorC2 : User := { uid := "alice" }

/-- The split of the worked example: with bob, alice paid, otherAmount 40,
shares 60/40. -/
def spC2accept : SplitReq :=
  { withUid := "bob", iPaid := true, otherAmount := { val := 40 },
    myShare := { val := 60 }, theirShare := { val := 40 } }

/-- The worked example request: amount 60 with the 60/40 split of a total of
100, and a category on the primary transaction. -/
def reqC2accept : AddTransactionRequest :=
  { frame := 0, amount := { val := 60 }, description := "dinner", category := some "food",
    date := "2019-01-01", split := some spC2accept }

/-- The same request with amount 50: `distributeTotal(90, 60, 40) = (54, 36)`
does not reproduce it. -/
def reqC2reject : AddTransactionRequest :=
  { reqC2accept with amount := { val := 50 } }

/-- A request with a negative (invalid) amount. -/
def reqC2neg : AddTransactionRequest :=
  { reqC2accept with amount := { val := -5 } }

/-- A transaction row owned by bob's group g2 and carrying an active split. -/
def txC5 : TxRow := { id := "t1", gid := "g2", frame := 0, amount := 60,
                      description := "d", category := none,
                      date := "2019-01-01", alive := true }

/-- A database in which `txC5` has an active split `s1` with a second
transaction `t2`. -/
def stC5 : DB := { transactions := [txC5],
                   frames := [], categories := [], sharedTransactions := [],
                   transactionSplits := [{ tid := "t1", sid := "s1", share := 60 },
                                         { tid := "t2", sid := "s1", share := 40 }],
                   friendBalances := [], users := [("alice", "g1"), ("bob", "g2")],
                   friendships := [("alice", "bob")], nextId := 0 }

/-- One side of a concrete shared transaction: alice's row in group g1. -/
def txC8a : TxRow := { id := "t1", gid := "g1", frame := 0, amount := 60, description := "d",
                       category := none, date := "2019-01-01", alive := true }

/-- The other side: bob's row in group g2. -/
def txC8b : TxRow := { id := "t2", gid := "g2", frame := 0, amount := 40, description := "d",
                       category := none, date := "2019-01-01", alive := true }

/-- A database holding the shared transaction `s1` between `t1` and `t2`. -/
def stC8 : DB := { transactions := [txC8a, txC8b], frames := [], categories := [],
                   sharedTransactions := [{ id := "s1", payer := some "alice",
                                            settled := true }],
                   transactionSplits := [{ tid := "t1", sid := "s1", share := 60 },
                                         { tid := "t2", sid := "s1", share := 40 }],
                   friendBalances := [], users := [("alice", "g1"), ("bob", "g2")],
                   friendships := [("alice", "bob")], nextId := 0 }

/-- A split adjustment request on `t1`/`s1`: total 100, shares 50/50. -/
def reqC8 : TransactionSplitRequest := { tid := "t1", sid := "s1", total := { val := 100 },
                                         myShare := { val := 50 }, theirShare := { val := 50 },
                                         iPaid := true }

/-- A database for the ghost-frame synthesis: group g1 has a persisted frame
at index 0 (income 500, one category) and a stale ghost at index 1. -/
def stC4 : DB := { transactions := [],
                   frames := [{ gid := "g1", index := 0, income := 500, ghost := false },
                              { gid := "g1", index := 1, income := 0, ghost := true }],
                   categories := [{ id := "c1", gid := "g1", frame := 0, name := "Food",
                                    ordering := 0, budget := 100, ghost := false,
                                    alive := true },
                                  { id := "cg", gid := "g1", frame := 1, name := "Stale",
                                    ordering := 0, budget := 7, ghost := true,
                                    alive := true }],
                   sharedTransactions := [], transactionSplits := [], friendBalances := [],
                   users := [("alice", "g1")], friendships := [], nextId := 0 }

/-- The frame row `getPreviousFrame` finds for `stC4` at index 1. -/
def frC4prev : FrameRow := { gid := "g1", index := 0, income := 500, ghost := false }

end Dino

namespace Dino

theorem qsum_go (l : List ℤ) (a : ℤ) : l.foldl (fun x y => x + y) a = a + l.sum := by
  induction l generalizing a with
  | nil => simp
  | cons b l ih => simp [ih, add_assoc]

theorem qsum_eq_sum (l : List ℤ) : Money.qsum l = l.sum := by
  simp [Money.qsum, qsum_go]

/-- Projection fact: the ledger update of `addToBalance` leaves the
`transactions` table untouched. -/
theorem addToBalance_transactions (u1 u2 : String) (a : ℤ) (st : DB) :
    (addToBalance u1 u2 a st).transactions = st.transactions := by
  unfold addToBalance
  split <;> rfl

/-- `setTxField` never changes the row id. -/
theorem setTxField_id (field : TxField) (v : RowVal) (r : TxRow) :
    (setTxField field v r).id = r.id := by
  cases field <;> cases v <;> rfl

/-- The other side of a split is a different transaction id. -/
theorem getOtherTid_ne (tid sid : String) (st : DB) (otid : String)
    (h : getOtherTid tid sid st = some otid) : otid ≠ tid := by
  unfold getOtherTid at h
  cases hf : st.transactionSplits.find? (fun r => r.sid == sid && r.tid != tid) with
  | none => rw [hf] at h; simp at h
  | some rr =>
    rw [hf] at h
    simp only [Option.map_some'] at h
    have hp := List.find?_some hf
    simp only [Bool.and_eq_true, bne_iff_ne, ne_eq] at hp
    have hrr : rr.tid = otid := by injection h
    rw [hrr] at hp
    exact hp.2

/-- Rows whose id differs from the updated one survive `updateTxRow`
unchanged. -/
theorem updateTxRow_mem_ne (id : String) (field : TxField) (v : RowVal) (st : DB) :
    ∀ r ∈ (updateTxRow id field v st).transactions, r.id ≠ id → r ∈ st.transactions := by
  intro r hr hne
  unfold updateTxRow at hr
  simp only [List.mem_map] at hr
  obtain ⟨r0, hr0, rfl⟩ := hr
  by_cases h : r0.id == id
  · exfalso
    apply hne
    simp only [h, if_true]
    rw [setTxField_id]
    exact eq_of_beq h
  · simpa [h] using hr0

/-- After a description update, every row carrying the updated id holds the
new description. -/
theorem updateTxRow_desc (id : String) (d : String) (st : DB) :
    ∀ r ∈ (updateTxRow id .description (.str d) st).transactions,
      r.id = id → r.description = d := by
  intro r hr hid
  unfold updateTxRow at hr
  simp only [List.mem_map] at hr
  obtain ⟨r0, hr0, rfl⟩ := hr
  by_cases h : r0.id == id
  · simp [h, setTxField]
  · rw [if_neg (by simpa using h)] at hid ⊢
    exact absurd (by simpa using hid) (by simpa using h)

/-- After a date update, every row carrying the updated id holds the new
date. -/
theorem updateTxRow_date (id : String) (d : String) (st : DB) :
    ∀ r ∈ (updateTxRow id .date (.str d) st).transactions,
      r.id = id → r.date = d := by
  intro r hr hid
  unfold updateTxRow at hr
  simp only [List.mem_map] at hr
  obtain ⟨r0, hr0, rfl⟩ := hr
  by_cases h : r0.id == id
  · simp [h, setTxField]
  · rw [if_neg (by simpa using h)] at hid ⊢
    exact absurd (by simpa using hid) (by simpa using h)

/-- After `applySplitUpdates`, every transaction row carrying the first tid
holds the first amount. -/
theorem applySplitUpdates_amount_tid (tid otherTid sid : String) (a1 a2 myS theirS : ℤ)
    (payer : String) (st : DB) (hne : otherTid ≠ tid) :
    ∀ r ∈ (applySplitUpdates tid otherTid sid a1 a2 myS theirS payer st).transactions,
      r.id = tid → r.amount = a1 := by
  intro r hr hid
  unfold applySplitUpdates at hr
  simp only [List.map_map, List.mem_map, Function.comp] at hr
  obtain ⟨r0, hr0, rfl⟩ := hr
  by_cases h1 : r0.id == tid <;> by_cases h2 : r0.id == otherTid <;> simp_all

/-- After `applySplitUpdates`, every transaction row carrying the other tid
holds the second amount. -/
theorem applySplitUpdates_amount_other (tid otherTid sid : String) (a1 a2 myS theirS : ℤ)
    (payer : String) (st : DB) (hne : otherTid ≠ tid) :
    ∀ r ∈ (applySplitUpdates tid otherTid sid a1 a2 myS theirS payer st).transactions,
      r.id = otherTid → r.amount = a2 := by
  intro r hr hid
  unfold applySplitUpdates at hr
  simp only [List.map_map, List.mem_map, Function.comp] at hr
  obtain ⟨r0, hr0, rfl⟩ := hr
  by_cases h1 : r0.id == tid <;> by_cases h2 : r0.id == otherTid <;> simp_all

/-- After `applySplitUpdates`, the split row of the first tid holds the first
share. -/
theorem applySplitUpdates_share_tid (tid otherTid sid : String) (a1 a2 myS theirS : ℤ)
    (payer : String) (st : DB) (hne : otherTid ≠ tid) :
    ∀ r ∈ (applySplitUpdates tid otherTid sid a1 a2 myS theirS payer st).transactionSplits,
      r.tid = tid → r.share = myS := by
  intro r hr hid
  unfold applySplitUpdates at hr
  simp only [List.map_map, List.mem_map, Function.comp] at hr
  obtain ⟨r0, hr0, rfl⟩ := hr
  by_cases h1 : r0.tid == tid <;> by_cases h2 : r0.tid == otherTid <;> simp_all

/-- After `applySplitUpdates`, the split row of the other tid holds the
second share. -/
theorem applySplitUpdates_share_other (tid otherTid sid : String) (a1 a2 myS theirS : ℤ)
    (payer : String) (st : DB) (hne : otherTid ≠ tid) :
    ∀ r ∈ (applySplitUpdates tid otherTid sid a1 a2 myS theirS payer st).transactionSplits,
      r.tid = otherTid → r.share = theirS := by
  intro r hr hid
  unfold applySplitUpdates at hr
  simp only [List.map_map, List.mem_map, Function.comp] at hr
  obtain ⟨r0, hr0, rfl⟩ := hr
  by_cases h1 : r0.tid == tid <;> by_cases h2 : r0.tid == otherTid <;> simp_all

/-- After `applySplitUpdates`, the shared-transaction row of the split holds
the new payer. -/
theorem applySplitUpdates_payer (tid otherTid sid : String) (a1 a2 myS theirS : ℤ)
    (payer : String) (st : DB) :
    ∀ r ∈ (applySplitUpdates tid otherTid sid a1 a2 myS theirS payer st).sharedTransactions,
      r.id = sid → r.payer = some payer := by
  intro r hr hid
  unfold applySplitUpdates at hr
  simp only [List.mem_map] at hr
  obtain ⟨r0, hr0, rfl⟩ := hr
  by_cases h1 : r0.id == sid <;> simp_all

/-- `applySplitUpdates` leaves the friend ledger untouched. -/
theorem applySplitUpdates_friendBalances (tid otherTid sid : String) (a1 a2 myS theirS : ℤ)
    (payer : String) (st : DB) :
    (applySplitUpdates tid otherTid sid a1 a2 myS theirS payer st).friendBalances
      = st.friendBalances := rfl

/-- `deleteGhost` leaves the `transactions` table untouched. -/
theorem deleteGhost_transactions (gid : String) (index : Int) (st : DB) :
    (deleteGhost gid index st).transactions = st.transactions := rfl

end Dino

/-- C1: for every valid non-negative triple `(total, myShare, theirShare)`,
`distributeTotal` returns two non-negative parts whose exact sum is `total`. -/
theorem Dino.distributeTotal_partitions (total s1 s2 : ℤ)
    (htotal : 0 ≤ total) (hs1 : 0 ≤ s1) (hs2 : 0 ≤ s2) :
    0 ≤ (Dino.distributeTotal total s1 s2).1 ∧
    0 ≤ (Dino.distributeTotal total s1 s2).2 ∧
    (Dino.distributeTotal total s1 s2).1 + (Dino.distributeTotal total s1 s2).2 = total := by
  unfold Dino.distributeTotal
  refine ⟨Int.ediv_nonneg (mul_nonneg htotal hs1) (add_nonneg hs1 hs2), ?_, by ring⟩
  have hfirst : total * s1 / (s1 + s2) ≤ total := by
    rcases eq_or_lt_of_le (add_nonneg hs1 hs2) with hz | hpos
    · rw [← hz]
      simpa using htotal
    · calc total * s1 / (s1 + s2) ≤ total * (s1 + s2) / (s1 + s2) :=
            Int.ediv_le_ediv hpos (by nlinarith)
        _ = total := Int.mul_ediv_cancel _ (ne_of_gt hpos)
  simpa using hfirst

/-- Witness for C1 at `(total, myShare, theirShare) = (100, 60, 40)`. -/
theorem Dino.distributeTotal_partitions_witness :
    0 ≤ (Dino.distributeTotal 100 60 40).1 ∧
    0 ≤ (Dino.distributeTotal 100 60 40).2 ∧
    (Dino.distributeTotal 100 60 40).1 + (Dino.distributeTotal 100 60 40).2 = 100 :=
  Dino.distributeTotal_partitions 100 60 40 (by norm_num) (by norm_num) (by norm_num)

/-- C3: `getBalance(gid, index)` equals the sum of income over all frames of
the group with index at most the given index, minus the sum of amounts over
all alive transactions of the group with frame at most the given index. -/
theorem Dino.getBalance_spec (gid : String) (index : Int) (st : Dino.DB) :
    Dino.getBalance gid index st =
      ((st.frames.filter (fun r => decide (r.gid = gid ∧ r.index ≤ index))).map
        (fun r => r.income)).sum -
      ((st.transactions.filter
          (fun r => decide (r.gid = gid ∧ r.frame ≤ index ∧ r.alive = true))).map
        (fun r => r.amount)).sum := by
  have h1 : st.frames.filter (fun r => r.gid == gid && decide (r.index ≤ index))
      = st.frames.filter (fun r => decide (r.gid = gid ∧ r.index ≤ index)) :=
    List.filter_congr (fun r _ => by rw [Bool.eq_iff_iff]; simp [and_assoc])
  have h2 : st.transactions.filter (fun r => r.gid == gid && decide (r.frame ≤ index) && r.alive)
      = st.transactions.filter (fun r => decide (r.gid = gid ∧ r.frame ≤ index ∧ r.alive = true)) :=
    List.filter_congr (fun r _ => by rw [Bool.eq_iff_iff]; simp [and_assoc])
  unfold Dino.getBalance
  simp only [Dino.qsum_eq_sum, h1, h2]

/-- C10: `getCategories(gid, frame)` returns only alive categories, sorted
ascending by `ordering`, each with balance equal to its budget minus the
category-scoped alive spending of that frame. -/
theorem Dino.getCategories_spec (gid : String) (frame : Int) (st : Dino.DB) :
    (∀ c ∈ Dino.getCategories gid frame st, c.alive = true) ∧
    List.Sorted (fun a b : Dino.Category => a.ordering ≤ b.ordering)
      (Dino.getCategories gid frame st) ∧
    (∀ c ∈ Dino.getCategories gid frame st,
      c.balance = c.budget -
        ((st.transactions.filter
            (fun r => decide (r.category = some c.id ∧ r.frame = frame ∧ r.alive = true))).map
          (fun r => r.amount)).sum) := by
  refine ⟨?_, ?_, ?_⟩
  · intro c hc
    unfold Dino.getCategories at hc
    simp only [List.mem_map] at hc
    obtain ⟨r, hr, rfl⟩ := hc
    rw [List.mem_insertionSort] at hr
    have := List.of_mem_filter hr
    simp only [Bool.and_eq_true, beq_iff_eq] at this
    exact this.2
  · unfold Dino.getCategories
    have hs := List.sorted_insertionSort Dino.catRowLe
      (st.categories.filter (fun r => r.gid == gid && r.frame == frame && r.alive))
    exact List.Pairwise.map _ (fun a b h => h) hs
  · intro c hc
    unfold Dino.getCategories at hc
    simp only [List.mem_map] at hc
    obtain ⟨r, _, rfl⟩ := hc
    show r.budget - Dino.categoriesGetSpending r.id frame st = r.budget - _
    have h3 : st.transactions.filter (fun t => t.category == some r.id && t.frame == frame && t.alive)
        = st.transactions.filter (fun t => decide (t.category = some r.id ∧ t.frame = frame ∧ t.alive = true)) :=
      List.filter_congr (fun t _ => by rw [Bool.eq_iff_iff]; simp [and_assoc])
    unfold Dino.categoriesGetSpending
    rw [Dino.qsum_eq_sum, h3]

/-- C2: `handle_transaction_post` returns 400 with the state unchanged when
the amount is not a valid non-negative monetary value, or, for a split, when
any of otherAmount/myShare/theirShare is invalid or `distributeTotal` over
`amount + otherAmount` does not reproduce the submitted amount and
otherAmount exactly; the worked example `amount=60, otherAmount=40,
myShare=60, theirShare=40` is accepted and `amount=50` with the same shares
is rejected with 400. -/
theorem Dino.handle_transaction_post_validation_spec :
    (∀ (request : Dino.AddTransactionRequest) (actor : Dino.User) (st : Dino.DB),
        request.amount.isValid false = false →
        Dino.handle_transaction_post request actor st = (.code400, st)) ∧
    (∀ (request : Dino.AddTransactionRequest) (actor : Dino.User) (st : Dino.DB)
        (sp : Dino.SplitReq),
        request.split = some sp →
        (sp.otherAmount.isValid false = false ∨ sp.myShare.isValid false = false ∨
         sp.theirShare.isValid false = false ∨
         (Dino.distributeTotal (request.amount.plus sp.otherAmount).val sp.myShare.val
            sp.theirShare.val).1 ≠ request.amount.val ∨
         (Dino.distributeTotal (request.amount.plus sp.otherAmount).val sp.myShare.val
            sp.theirShare.val).2 ≠ sp.otherAmount.val) →
        Dino.handle_transaction_post request actor st = (.code400, st)) ∧
    (Dino.handle_transaction_post Dino.reqC2accept Dino.actorC2 Dino.stC2).1.isTx = true ∧
    Dino.handle_transaction_post Dino.reqC2reject Dino.actorC2 Dino.stC2 =
      (.code400, Dino.stC2) := by
  refine ⟨?_, ?_, by decide, by decide⟩
  · intro request actor st h
    simp [Dino.handle_transaction_post, h]
  · intro request actor st sp hsp hcond
    have hsv : Dino.splitValidationFails request = true := by
      unfold Dino.splitValidationFails
      rw [hsp]
      by_cases h1 : sp.otherAmount.isValid false <;>
        by_cases h2 : sp.myShare.isValid false <;>
        by_cases h3 : sp.theirShare.isValid false <;>
        rcases hcond with h | h | h | h | h <;>
        simp_all
    by_cases hamt : request.amount.isValid false
    · simp [Dino.handle_transaction_post, hamt, hsv]
    · simp [Dino.handle_transaction_post, Bool.eq_false_iff.mpr hamt]

/-- Witness for C2: a negative amount is rejected with 400 and no write. -/
theorem Dino.handle_transaction_post_validation_spec_witness :
    Dino.reqC2neg.amount.isValid false = false ∧
    Dino.handle_transaction_post Dino.reqC2neg Dino.actorC2 Dino.stC2 =
      (.code400, Dino.stC2) :=
  ⟨by decide, Dino.handle_transaction_post_validation_spec.1 Dino.reqC2neg Dino.actorC2
    Dino.stC2 (by decide)⟩

/-- C9: when `handle_transaction_post` creates a split, the mirrored row
inserted for the counterparty (fresh id, the counterparty's group, the other
amount) always carries a null category, whatever the request's category. -/
theorem Dino.handle_transaction_post_mirror_category
    (request : Dino.AddTransactionRequest) (actor : Dino.User) (st : Dino.DB)
    (sp : Dino.SplitReq)
    (hsp : request.split = some sp)
    (hval : request.amount.isValid false = true)
    (hsv : Dino.splitValidationFails request = false)
    (hfr : Dino.isFriend actor.uid sp.withUid st = true) :
    ({ id := Dino.genId (st.nextId + 1), gid := Dino.defaultGroup sp.withUid st,
       frame := request.frame, amount := sp.otherAmount.val,
       description := request.description, category := none,
       date := request.date, alive := true } : Dino.TxRow)
      ∈ ((Dino.handle_transaction_post request actor st).2).transactions := by
  simp [Dino.handle_transaction_post, hsp, hval, hsv, hfr, Dino.addToBalance_transactions]

/-- Witness for C9 at the worked example, whose request names a category. -/
theorem Dino.handle_transaction_post_mirror_category_witness :
    Dino.reqC2accept.split = some Dino.spC2accept ∧
    Dino.reqC2accept.category = some "food" ∧
    ({ id := Dino.genId (Dino.stC2.nextId + 1),
       gid := Dino.defaultGroup Dino.spC2accept.withUid Dino.stC2,
       frame := Dino.reqC2accept.frame, amount := Dino.spC2accept.otherAmount.val,
       description := Dino.reqC2accept.description, category := none,
       date := Dino.reqC2accept.date, alive := true } : Dino.TxRow)
      ∈ ((Dino.handle_transaction_post Dino.reqC2accept Dino.actorC2 Dino.stC2).2).transactions :=
  ⟨rfl, rfl, Dino.handle_transaction_post_mirror_category Dino.reqC2accept Dino.actorC2
    Dino.stC2 Dino.spC2accept rfl (by decide) (by decide) (by decide)⟩

/-- C5 (amended): an amount update on a transaction with an active split in
the caller's default group is rejected with 400 and the state is unchanged;
an amount update on a transaction of a different group returns 401 provided
the submitted amount passes validity (an unparseable amount is rejected with
400 before the group check). -/
theorem Dino.handle_transaction_amount_post_spec :
    (∀ (id : String) (m : Dino.Money) (actor : Dino.User) (st : Dino.DB) (ex : Dino.TxRow),
        Dino.getTransaction id st = some ex →
        (Dino.getSplitOf id st).isSome = true →
        ex.gid = Dino.defaultGroup actor.uid st →
        Dino.handle_transaction_amount_post id m actor st = (.err400, st)) ∧
    (∀ (id : String) (m : Dino.Money) (actor : Dino.User) (st : Dino.DB) (ex : Dino.TxRow),
        m.isValid false = true →
        Dino.getTransaction id st = some ex →
        ex.gid ≠ Dino.defaultGroup actor.uid st →
        Dino.handle_transaction_amount_post id m actor st = (.err401, st)) := by
  constructor
  · intro id m actor st ex hex hsplit hgid
    by_cases hv : m.isValid false
    · simp [Dino.handle_transaction_amount_post, Dino.handle_transaction_update_post, hv,
        hex, hgid, hsplit, Dino.canEditShared]
    · simp [Dino.handle_transaction_amount_post, Dino.handle_transaction_update_post,
        Bool.eq_false_iff.mpr hv]
  · intro id m actor st ex hv hex hgid
    simp [Dino.handle_transaction_amount_post, Dino.handle_transaction_update_post, hv,
      hex, bne_iff_ne, hgid]

/-- Counterexample for C5 as stated: on a transaction with an active split
owned by a different group, an amount update carrying an unparseable money
value returns 400, not 401. -/
theorem Dino.handle_transaction_amount_post_cex :
    Dino.txC5.gid ≠ Dino.defaultGroup "alice" Dino.stC5 ∧
    (Dino.getSplitOf "t1" Dino.stC5).isSome = true ∧
    Dino.handle_transaction_amount_post "t1" { val := 60, ok := false } { uid := "alice" }
      Dino.stC5 = (.err400, Dino.stC5) ∧
    Dino.UpdateResult.err400 ≠ Dino.UpdateResult.err401 := by decide

/-- Witness for C5: bob (whose default group owns `txC5`) gets 400 on the
split transaction; alice (a different group) gets 401 for a valid amount. -/
theorem Dino.handle_transaction_amount_post_spec_witness :
    Dino.handle_transaction_amount_post "t1" { val := 70 } { uid := "bob" } Dino.stC5 =
      (.err400, Dino.stC5) ∧
    Dino.handle_transaction_amount_post "t1" { val := 70 } { uid := "alice" } Dino.stC5 =
      (.err401, Dino.stC5) :=
  ⟨Dino.handle_transaction_amount_post_spec.1 "t1" { val := 70 } { uid := "bob" }
      Dino.stC5 Dino.txC5 (by decide) (by decide) (by decide),
   Dino.handle_transaction_amount_post_spec.2 "t1" { val := 70 } { uid := "alice" }
      Dino.stC5 Dino.txC5 (by decide) (by decide) (by decide)⟩

/-- C6: on a split transaction of the caller's default group, a date or
description update returns 204 and writes the same value to every row of the
requested transaction and of the linked transaction of the split. -/
theorem Dino.handle_transaction_update_shared_spec
    (id : String) (actor : Dino.User) (st : Dino.DB) (ex : Dino.TxRow)
    (sp : Dino.SplitRow) (otid : String)
    (hex : Dino.getTransaction id st = some ex)
    (hgid : ex.gid = Dino.defaultGroup actor.uid st)
    (hsp : Dino.getSplitOf id st = some sp)
    (hot : Dino.getOtherTid id sp.sid st = some otid) :
    (∀ d : String, d ≠ "" →
       (Dino.handle_transaction_description_post id d actor st).1 = .ok204 ∧
       ∀ r ∈ ((Dino.handle_transaction_description_post id d actor st).2).transactions,
         r.id = id ∨ r.id = otid → r.description = d) ∧
    (∀ d : String,
       (Dino.handle_transaction_date_post id d actor st).1 = .ok204 ∧
       ∀ r ∈ ((Dino.handle_transaction_date_post id d actor st).2).transactions,
         r.id = id ∨ r.id = otid → r.date = d) := by
  have hne : otid ≠ id := Dino.getOtherTid_ne id sp.sid st otid hot
  constructor
  · intro d hd
    have hd' : (d != "") = true := by simpa using hd
    have hres : Dino.handle_transaction_description_post id d actor st =
        (.ok204, Dino.updateTxRow otid .description (.str d)
          (Dino.updateTxRow id .description (.str d) st)) := by
      simp [Dino.handle_transaction_description_post, Dino.handle_transaction_update_post,
        hd', hex, hgid, hsp, hot, Dino.canEditShared, Dino.isSharedField]
    rw [hres]
    refine ⟨rfl, ?_⟩
    intro r hr hcase
    rcases hcase with hid | hid
    · have hr1 : r ∈ (Dino.updateTxRow id .description (.str d) st).transactions :=
        Dino.updateTxRow_mem_ne otid .description (.str d) _ r hr
          (by rw [hid]; exact fun h => hne h.symm)
      exact Dino.updateTxRow_desc id d st r hr1 hid
    · exact Dino.updateTxRow_desc otid d _ r hr hid
  · intro d
    have hres : Dino.handle_transaction_date_post id d actor st =
        (.ok204, Dino.updateTxRow otid .date (.str d)
          (Dino.updateTxRow id .date (.str d) st)) := by
      simp [Dino.handle_transaction_date_post, Dino.handle_transaction_update_post,
        hex, hgid, hsp, hot, Dino.canEditShared, Dino.isSharedField]
    rw [hres]
    refine ⟨rfl, ?_⟩
    intro r hr hcase
    rcases hcase with hid | hid
    · have hr1 : r ∈ (Dino.updateTxRow id .date (.str d) st).transactions :=
        Dino.updateTxRow_mem_ne otid .date (.str d) _ r hr
          (by rw [hid]; exact fun h => hne h.symm)
      exact Dino.updateTxRow_date id d st r hr1 hid
    · exact Dino.updateTxRow_date otid d _ r hr hid

/-- Witness for C6: bob updates the description and the date of his split
transaction `t1`; both rows `t1` and `t2` receive the values. -/
theorem Dino.handle_transaction_update_shared_spec_witness :
    ((Dino.handle_transaction_description_post "t1" "lunch" { uid := "bob" } Dino.stC5).1
        = .ok204 ∧
      ∀ r ∈ ((Dino.handle_transaction_description_post "t1" "lunch" { uid := "bob" }
          Dino.stC5).2).transactions,
        r.id = "t1" ∨ r.id = "t2" → r.description = "lunch") ∧
    ((Dino.handle_transaction_date_post "t1" "2019-02-02" { uid := "bob" } Dino.stC5).1
        = .ok204 ∧
      ∀ r ∈ ((Dino.handle_transaction_date_post "t1" "2019-02-02" { uid := "bob" }
          Dino.stC5).2).transactions,
        r.id = "t1" ∨ r.id = "t2" → r.date = "2019-02-02") :=
  ⟨(Dino.handle_transaction_update_shared_spec "t1" { uid := "bob" } Dino.stC5 Dino.txC5
      { tid := "t1", sid := "s1", share := 60 } "t2" (by decide) (by decide) (by decide)
      (by decide)).1 "lunch" (by decide),
   (Dino.handle_transaction_update_shared_spec "t1" { uid := "bob" } Dino.stC5 Dino.txC5
      { tid := "t1", sid := "s1", share := 60 } "t2" (by decide) (by decide) (by decide)
      (by decide)).2 "2019-02-02"⟩

/-- C7: `handle_transaction_delete` returns 400 and performs no write when
`canUserEdit` fails (non-existent or non-owned id); when it holds, it returns
204 and soft-deletes: rows of the id lose the alive flag, every other row and
every other table is untouched. -/
theorem Dino.handle_transaction_delete_spec :
    (∀ (id : String) (actor : Dino.User) (st : Dino.DB),
        Dino.canUserEdit id actor.uid st = false →
        Dino.handle_transaction_delete id actor st = (.err400, st)) ∧
    (∀ (id : String) (actor : Dino.User) (st : Dino.DB),
        Dino.canUserEdit id actor.uid st = true →
        (Dino.handle_transaction_delete id actor st).1 = .ok204 ∧
        (∀ r ∈ ((Dino.handle_transaction_delete id actor st).2).transactions,
            r.id = id → r.alive = false) ∧
        (∀ r ∈ ((Dino.handle_transaction_delete id actor st).2).transactions,
            r.id ≠ id → r ∈ st.transactions) ∧
        ((Dino.handle_transaction_delete id actor st).2).frames = st.frames ∧
        ((Dino.handle_transaction_delete id actor st).2).categories = st.categories ∧
        ((Dino.handle_transaction_delete id actor st).2).sharedTransactions
          = st.sharedTransactions ∧
        ((Dino.handle_transaction_delete id actor st).2).transactionSplits
          = st.transactionSplits ∧
        ((Dino.handle_transaction_delete id actor st).2).friendBalances
          = st.friendBalances) := by
  constructor
  · intro id actor st h
    simp [Dino.handle_transaction_delete, h]
  · intro id actor st h
    have hres : Dino.handle_transaction_delete id actor st =
        (.ok204, Dino.deleteTransaction id st) := by
      simp [Dino.handle_transaction_delete, h]
    rw [hres]
    refine ⟨rfl, ?_, ?_, rfl, rfl, rfl, rfl, rfl⟩
    · intro r hr hid
      unfold Dino.deleteTransaction at hr
      simp only [List.mem_map] at hr
      obtain ⟨r0, hr0, rfl⟩ := hr
      by_cases hb : r0.id == id
      · simp [hb]
      · rw [if_neg (by simpa using hb)] at hid ⊢
        exact absurd (by simpa using hid) (by simpa using hb)
    · intro r hr hid
      unfold Dino.deleteTransaction at hr
      simp only [List.mem_map] at hr
      obtain ⟨r0, hr0, rfl⟩ := hr
      by_cases hb : r0.id == id
      · exfalso
        apply hid
        simp [hb]
        exact eq_of_beq hb
      · simpa [hb] using hr0

/-- Witness for C7: alice cannot delete bob's transaction `t1` (400, no
write); bob deletes it and the row goes dead. -/
theorem Dino.handle_transaction_delete_spec_witness :
    Dino.handle_transaction_delete "t1" { uid := "alice" } Dino.stC5 =
      (.err400, Dino.stC5) ∧
    ((Dino.handle_transaction_delete "t1" { uid := "bob" } Dino.stC5).1 = .ok204 ∧
      ∀ r ∈ ((Dino.handle_transaction_delete "t1" { uid := "bob" } Dino.stC5).2).transactions,
        r.id = "t1" → r.alive = false) :=
  ⟨Dino.handle_transaction_delete_spec.1 "t1" { uid := "alice" } Dino.stC5 (by decide),
   ⟨(Dino.handle_transaction_delete_spec.2 "t1" { uid := "bob" } Dino.stC5 (by decide)).1,
    (Dino.handle_transaction_delete_spec.2 "t1" { uid := "bob" } Dino.stC5 (by decide)).2.1⟩⟩

/-- C8: `handle_transaction_split_post` never returns 401, and for every
request with valid non-negative total and shares and non-empty tid/sid whose
lookups succeed — with no condition whatsoever on the acting user or the
transaction's group — it returns 204 after setting both amounts from
`distributeTotal`, both shares, the payer, and the ledger delta. -/
theorem Dino.handle_transaction_split_post_spec :
    (∀ (request : Dino.TransactionSplitRequest) (actor : Dino.User) (st : Dino.DB),
        (Dino.handle_transaction_split_post request actor st).1 ≠ .err401) ∧
    (∀ (request : Dino.TransactionSplitRequest) (actor : Dino.User) (st : Dino.DB)
        (otherTid otherUid : String) (prevBal : ℤ),
        request.total.isValid false = true →
        request.myShare.isValid false = true →
        request.theirShare.isValid false = true →
        request.tid ≠ "" →
        request.sid ≠ "" →
        Dino.getOtherTid request.tid request.sid st = some otherTid →
        Dino.getUserOf otherTid st = some otherUid →
        Dino.getBalanceFromDb request.tid st = some prevBal →
        (Dino.handle_transaction_split_post request actor st).1 = .ok204 ∧
        (∀ r ∈ ((Dino.handle_transaction_split_post request actor st).2).transactions,
            r.id = request.tid →
            r.amount = (Dino.distributeTotal request.total.val request.myShare.val
              request.theirShare.val).1) ∧
        (∀ r ∈ ((Dino.handle_transaction_split_post request actor st).2).transactions,
            r.id = otherTid →
            r.amount = (Dino.distributeTotal request.total.val request.myShare.val
              request.theirShare.val).2) ∧
        (∀ r ∈ ((Dino.handle_transaction_split_post request actor st).2).transactionSplits,
            r.tid = request.tid → r.share = request.myShare.val) ∧
        (∀ r ∈ ((Dino.handle_transaction_split_post request actor st).2).transactionSplits,
            r.tid = otherTid → r.share = request.theirShare.val) ∧
        (∀ r ∈ ((Dino.handle_transaction_split_post request actor st).2).sharedTransactions,
            r.id = request.sid →
            r.payer = some (if request.iPaid then actor.uid else otherUid)) ∧
        ((Dino.handle_transaction_split_post request actor st).2).friendBalances =
          (Dino.addToBalance actor.uid otherUid
            (Dino.txGetBalance actor.uid otherUid
              (Dino.distributeTotal request.total.val request.myShare.val
                request.theirShare.val).1
              (Dino.distributeTotal request.total.val request.myShare.val
                request.theirShare.val).2
              (some (if request.iPaid then actor.uid else otherUid)) - prevBal)
            st).friendBalances) := by
  constructor
  · intro request actor st
    unfold Dino.handle_transaction_split_post
    (repeat' split) <;> simp
  · intro request actor st otherTid otherUid prevBal hv1 hv2 hv3 htid hsid hot huid hbal
    have hne : otherTid ≠ request.tid :=
      Dino.getOtherTid_ne request.tid request.sid st otherTid hot
    have hcond : (!request.total.isValid false || !request.myShare.isValid false ||
        !request.theirShare.isValid false || request.tid == "" ||
        request.sid == "") = false := by
      simp [hv1, hv2, hv3]
      exact ⟨htid, hsid⟩
    have hpair : Dino.handle_transaction_split_post request actor st =
        (.ok204, Dino.applySplitUpdates request.tid otherTid request.sid
          (Dino.distributeTotal request.total.val request.myShare.val
            request.theirShare.val).1
          (Dino.distributeTotal request.total.val request.myShare.val
            request.theirShare.val).2
          request.myShare.val request.theirShare.val
          (if request.iPaid then actor.uid else otherUid)
          (Dino.addToBalance actor.uid otherUid
            (Dino.txGetBalance actor.uid otherUid
              (Dino.distributeTotal request.total.val request.myShare.val
                request.theirShare.val).1
              (Dino.distributeTotal request.total.val request.myShare.val
                request.theirShare.val).2
              (some (if request.iPaid then actor.uid else otherUid)) - prevBal)
            st)) := by
      simp [Dino.handle_transaction_split_post, hcond, hot, huid, hbal]
    rw [hpair]
    exact ⟨rfl,
      Dino.applySplitUpdates_amount_tid _ _ _ _ _ _ _ _ _ hne,
      Dino.applySplitUpdates_amount_other _ _ _ _ _ _ _ _ _ hne,
      Dino.applySplitUpdates_share_tid _ _ _ _ _ _ _ _ _ hne,
      Dino.applySplitUpdates_share_other _ _ _ _ _ _ _ _ _ hne,
      Dino.applySplitUpdates_payer _ _ _ _ _ _ _ _ _,
      Dino.applySplitUpdates_friendBalances _ _ _ _ _ _ _ _ _⟩

/-- Witness for C8: carol — who owns neither transaction — successfully
adjusts the split and gets 204, never 401. -/
theorem Dino.handle_transaction_split_post_spec_witness :
    (Dino.handle_transaction_split_post Dino.reqC8 { uid := "carol" } Dino.stC8).1
      ≠ .err401 ∧
    Dino.getOtherTid Dino.reqC8.tid Dino.reqC8.sid Dino.stC8 = some "t2" ∧
    (Dino.handle_transaction_split_post Dino.reqC8 { uid := "carol" } Dino.stC8).1
      = .ok204 :=
  ⟨Dino.handle_transaction_split_post_spec.1 Dino.reqC8 { uid := "carol" } Dino.stC8,
   by decide,
   (Dino.handle_transaction_split_post_spec.2 Dino.reqC8 { uid := "carol" } Dino.stC8
      "t2" "bob" 40 (by decide) (by decide) (by decide) (by decide) (by decide)
      (by decide) (by decide) (by decide)).1⟩

/-- C4: when `getOrCreateFrameInner` runs for a `(gid, index)` with no
persisted non-ghost frame row, the stale ghost frame and category rows of
that index are deleted, a ghost frame is synthesized, and: with a prior
frame, its income is carried forward, its categories are re-pointed to the
new index with the same names and budgets, the income is added to the
balance, and — spending being frame-scoped — the new frame's category
spending counts only transactions of the new index (the transactions table
is untouched); with no prior frame, the default categories are seeded with
zero budget. -/
theorem Dino.getOrCreateFrame_ghost_spec (gid : String) (index : Int) (st : Dino.DB)
    (habsent : st.frames.find?
      (fun r => r.gid == gid && r.index == index && r.ghost == false) = none) :
    (∀ r ∈ (Dino.deleteGhost gid index st).frames, ¬(r.gid = gid ∧ r.index = index)) ∧
    (∀ r ∈ (Dino.deleteGhost gid index st).categories,
        ¬(r.gid = gid ∧ r.frame = index ∧ r.ghost = true)) ∧
    (Dino.getOrCreateFrameInner gid index st).1.ghost = true ∧
    ((Dino.getOrCreateFrameInner gid index st).2).transactions = st.transactions ∧
    (∀ prev, Dino.getPreviousFrame gid index (Dino.deleteGhost gid index st) = some prev →
       (Dino.getOrCreateFrameInner gid index st).1.income = prev.income ∧
       (Dino.getOrCreateFrameInner gid index st).1.balance =
         Dino.getBalance gid index (Dino.deleteGhost gid index st) + prev.income ∧
       (Dino.getOrCreateFrameInner gid index st).1.categories.map (fun c => c.name) =
         (Dino.getCategories gid prev.index (Dino.deleteGhost gid index st)).map
           (fun c => c.name) ∧
       (Dino.getOrCreateFrameInner gid index st).1.categories.map (fun c => c.budget) =
         (Dino.getCategories gid prev.index (Dino.deleteGhost gid index st)).map
           (fun c => c.budget) ∧
       (∀ c ∈ (Dino.getOrCreateFrameInner gid index st).1.categories, c.frame = index) ∧
       ((Dino.getOrCreateFrameInner gid index st).2).frames =
         (Dino.deleteGhost gid index st).frames ++
           [{ gid := gid, index := index, income := prev.income, ghost := true }]) ∧
    (Dino.getPreviousFrame gid index (Dino.deleteGhost gid index st) = none →
       (Dino.getOrCreateFrameInner gid index st).1.income = 0 ∧
       (Dino.getOrCreateFrameInner gid index st).1.categories.map (fun c => c.name) =
         Dino.DEFAULT_CATEGORIES ∧
       (∀ c ∈ (Dino.getOrCreateFrameInner gid index st).1.categories,
          c.budget = 0 ∧ c.frame = index)) ∧
    (∀ cid : String,
       Dino.categoriesGetSpending cid index ((Dino.getOrCreateFrameInner gid index st).2) =
         Dino.Money.qsum ((st.transactions.filter (fun r =>
           r.category == some cid && r.frame == index && r.alive)).map (fun r => r.amount))) := by
  have htx : ((Dino.getOrCreateFrameInner gid index st).2).transactions = st.transactions := by
    rcases hprev : Dino.getPreviousFrame gid index (Dino.deleteGhost gid index st)
      with _ | prev <;>
      simp only [Dino.getOrCreateFrameInner, habsent, hprev, Dino.persistNewFrame,
        Dino.deleteGhost_transactions]
  refine ⟨?_, ?_, ?_, htx, ?_, ?_, ?_⟩
  · intro r hr hand
    rw [List.find?_eq_none] at habsent
    unfold Dino.deleteGhost at hr
    simp only [List.mem_filter] at hr
    have h2 := habsent r hr.1
    have h3 := hr.2
    simp only [hand.1, hand.2, beq_self_eq_true, Bool.true_and, Bool.not_eq_true'] at h2 h3
    rw [h3] at h2
    simp at h2
  · intro r hr hand
    unfold Dino.deleteGhost at hr
    simp only [List.mem_filter] at hr
    have h3 := hr.2
    simp only [hand.1, hand.2.1, hand.2.2, beq_self_eq_true, Bool.true_and] at h3
    simp at h3
  · rcases hprev : Dino.getPreviousFrame gid index (Dino.deleteGhost gid index st)
      with _ | prev <;>
      simp only [Dino.getOrCreateFrameInner, habsent, hprev, Dino.persistNewFrame]
  · intro prev hprev
    simp only [Dino.getOrCreateFrameInner, habsent, hprev, Dino.persistNewFrame]
    refine ⟨trivial, trivial, ?_, ?_, ?_, trivial⟩
    · simp [List.map_map, Function.comp]
    · simp [List.map_map, Function.comp]
    · intro c hc
      simp only [List.mem_map] at hc
      obtain ⟨c0, _, rfl⟩ := hc
      rfl
  · intro hprev
    simp only [Dino.getOrCreateFrameInner, habsent, hprev, Dino.persistNewFrame]
    refine ⟨by trivial, by trivial, ?_⟩
    intro c hc
    simp only [Dino.defaultCategories, Dino.DEFAULT_CATEGORIES, List.enum, List.enumFrom,
      List.map, List.mem_cons, List.not_mem_nil, or_false] at hc
    rcases hc with h | h | h | h <;> subst h <;> exact ⟨rfl, rfl⟩
  · intro cid
    unfold Dino.categoriesGetSpending
    rw [htx]

/-- Witness for C4: requesting frame 1 of group g1 in `stC4` synthesizes a
ghost frame carrying forward the income 500 of frame 0. -/
theorem Dino.getOrCreateFrame_ghost_spec_witness :
    Dino.stC4.frames.find?
      (fun r => r.gid == "g1" && r.index == 1 && r.ghost == false) = none ∧
    (Dino.getOrCreateFrameInner "g1" 1 Dino.stC4).1.ghost = true ∧
    (Dino.getOrCreateFrameInner "g1" 1 Dino.stC4).1.income = Dino.frC4prev.income :=
  ⟨by decide,
   (Dino.getOrCreateFrame_ghost_spec "g1" 1 Dino.stC4 (by decide)).2.2.1,
   ((Dino.getOrCreateFrame_ghost_spec "g1" 1 Dino.stC4 (by decide)).2.2.2.2.1
      Dino.frC4prev (by decide)).1⟩

/-- Witness for C10 at a concrete database: the categories of frame 0 of
group g1 in `stC4`. -/
theorem Dino.getCategories_spec_witness :
    (∀ c ∈ Dino.getCategories "g1" 0 Dino.stC4, c.alive = true) ∧
    List.Sorted (fun a b : Dino.Category => a.ordering ≤ b.ordering)
      (Dino.getCategories "g1" 0 Dino.stC4) ∧
    (∀ c ∈ Dino.getCategories "g1" 0 Dino.stC4,
      c.balance = c.budget -
        ((Dino.stC4.transactions.filter
            (fun r => decide (r.category = some c.id ∧ r.frame = 0 ∧ r.alive = true))).map
          (fun r => r.amount)).sum) :=
  Dino.getCategories_spec "g1" 0 Dino.stC4
